import Mathlib

/-!
Verification of the host-based reverse proxy in cmd/server/main.go.

The data model and the operations below are a shallow embedding of the Go
source: Go maps become association lists with exact-match lookup, pointer
mutation of the request becomes explicit state passing (the returned
request is the request after the call), and the observable effects on an
http.ResponseWriter (headers set, status line sent, body bytes written)
become an explicit record that each write operation transforms.
-/

namespace Proxy

/-- Go map from string to string, modelled as an association list with
exact-match lookup; keys are unique by construction in the program. -/
abbrev Table := List (String × String)

/-- Map lookup with the comma-ok idiom: `v, ok := m[k]` is `some v` when
the key is present and `none` otherwise. -/
def lookupTable (t : Table) (k : String) : Option String :=
  List.lookup k t

/-- Go map indexing `m[k]` in value position: the zero value "" when the
key is absent (as in the director function). -/
def indexTable (t : Table) (k : String) : String :=
  (lookupTable t k).getD ""

/-- net/url URL restricted to the fields this program touches.  The field
`path` holds the escaped path, so Go's EscapedPath() is the field itself
and String() concatenates it directly. -/
structure URL where
  scheme : String
  host : String
  path : String
  rawQuery : String
deriving DecidableEq, Repr

/-- net/url URL.String restricted to the modelled fields (no opaque data,
user info or fragment ever occurs in this program): optional "scheme:",
then "//host" when a host or a scheme is present, a "/" inserted when a
relative path follows a host, the escaped path, and "?rawQuery" when the
query is nonempty. -/
def URL.toString (u : URL) : String :=
  (if u.scheme = "" then "" else u.scheme ++ ":") ++
  (if u.scheme = "" ∧ u.host = "" then "" else
    (if u.host = "" ∧ u.path = "" then "" else "//") ++ u.host) ++
  (if u.path ≠ "" ∧ ¬ u.path.startsWith "/" ∧ u.host ≠ "" then "/" else "") ++
  u.path ++
  (if u.rawQuery = "" then "" else "?" ++ u.rawQuery)

/-- http.Request fields this program reads: Method, the Host header, and
the parsed URL. -/
structure Request where
  method : String
  host : String
  url : URL
deriving DecidableEq, Repr

/-- Observable state of an http.ResponseWriter: the headers set, the
status line actually sent (only the first WriteHeader takes effect; later
calls are superfluous no-ops), and the body bytes written. -/
structure ResponseState where
  headers : List (String × String)
  statusWritten : Option Nat
  body : String
deriving DecidableEq, Repr

/-- Fresh per-request response state. -/
def ResponseState.empty : ResponseState :=
  { headers := [], statusWritten := none, body := "" }

/-- Header().Set(k, v): replaces any existing value for the key. -/
def ResponseState.setHeader (s : ResponseState) (k v : String) : ResponseState :=
  { s with headers := (k, v) :: s.headers.filter (fun p => p.1 ≠ k) }

/-- Header lookup, for stating what a handler set. -/
def ResponseState.getHeader (s : ResponseState) (k : String) : Option String :=
  List.lookup k s.headers

/-- WriteHeader on the underlying writer: only the first call takes
effect on the wire. -/
def ResponseState.writeHeader (s : ResponseState) (code : Nat) : ResponseState :=
  match s.statusWritten with
  | some _ => s
  | none => { s with statusWritten := some code }

/-- Write on the underlying writer: an implicit WriteHeader(200) precedes
the first body write when no status was sent yet, then the bytes are
appended. -/
def ResponseState.write (s : ResponseState) (b : String) : ResponseState :=
  { s.writeHeader 200 with body := s.body ++ b }

/-- responseWriter is similar to http.ResponseWriter, except that it
saves the status code.  The `status` field is a Go int whose zero value
is 0 at allocation. -/
structure responseWriter where
  status : Nat
  ResponseWriter : ResponseState
deriving DecidableEq, Repr

/-- WriteHeader of the wrapper: stores the argument into `status` (every
call overwrites it) and delegates to the wrapped writer. -/
def responseWriter.WriteHeader (w : responseWriter) (status : Nat) : responseWriter :=
  { status := status, ResponseWriter := w.ResponseWriter.writeHeader status }

/-- Applies a sequence of WriteHeader calls to a wrapper instance, in
order. -/
def writeHeaderCalls (w : responseWriter) (calls : List Nat) : responseWriter :=
  calls.foldl responseWriter.WriteHeader w

/-- html.EscapeString on one character: escapes the five special
characters ampersand, apostrophe, less-than, greater-than and double
quote, and keeps every other character. -/
def htmlEscapeChar (c : Char) : String :=
  if c = Char.ofNat 38 then "&amp;"
  else if c = Char.ofNat 39 then "&#39;"
  else if c = Char.ofNat 60 then "&lt;"
  else if c = Char.ofNat 62 then "&gt;"
  else if c = Char.ofNat 34 then "&#34;"
  else String.singleton c

/-- html.EscapeString. -/
def htmlEscape (s : String) : String :=
  String.join (s.toList.map htmlEscapeChar)

/-- net/http StatusText for the status codes this program uses. -/
def statusText (code : Nat) : String :=
  if code = 302 then "Found" else if code = 200 then "OK" else ""

/-- redirectByHost: looks the Host header up in hostMap; on a miss it
returns false having done nothing; on a hit it overwrites the request
URL's host in place, sets the Location header to the resulting URL
string, writes status 302, and for GET requests prints the conventional
anchor note (fmt.Fprintln appends a final newline to the note, which
itself ends in a newline).  Returns (emitted, writer after, request
after). -/
def redirectByHost (hostMap : Table) (w : ResponseState) (r : Request) :
    Bool × ResponseState × Request :=
  match lookupTable hostMap r.host with
  | none => (false, w, r)
  | some newHost =>
    let r2 : Request := { r with url := { r.url with host := newHost } }
    let urlStr := r2.url.toString
    let w2 := w.setHeader "Location" urlStr
    let w3 := w2.writeHeader 302
    let w4 := if r2.method = "GET" then
        w3.write ("<a href=\"" ++ htmlEscape urlStr ++ "\">" ++ statusText 302 ++ "</a>.\n" ++ "\n")
      else w3
    (true, w4, r2)

/-- Director installed by newReverseProxy: forces plain http scheme and
the backend address looked up by the Host header (the zero value "" when
absent). -/
def director (backends : Table) (r : Request) : Request :=
  { r with url := { r.url with scheme := "http", host := indexTable backends r.host } }

/-- Response produced by the backend (or synthesized by the forwarding
primitive on failure), as observed through the wrapper. -/
structure BackendResponse where
  status : Nat
  body : String
deriving DecidableEq, Repr

/-- Model of httputil.ReverseProxy.ServeHTTP as used here: run the
director on the request, write the backend status through the wrapper's
WriteHeader, and stream the backend body through the wrapper's (inherited)
Write. -/
def proxyServeHTTP (backends : Table) (resp : BackendResponse)
    (w : responseWriter) (r : Request) : responseWriter × Request :=
  let r2 := director backends r
  let w2 := w.WriteHeader resp.status
  ({ w2 with ResponseWriter := w2.ResponseWriter.write resp.body }, r2)

/-- Outcome of one reverseProxy.ServeHTTP call: writer after, request
after, log lines emitted, and whether the proxy branch ran (a forward was
attempted). -/
structure ServeResult where
  w : ResponseState
  r : Request
  logLines : List String
  forwarded : Bool
deriving DecidableEq, Repr

/-- reverseProxy.ServeHTTP: first redirectByHost (return if it emitted);
else, when the Host header is a backend key, wrap the writer in a fresh
responseWriter, forward through the proxy, and log
"METHOD host+escapedPath?rawQuery status" exactly when the captured
status differs from 200; else write the unknown-host body. -/
def serveHTTP (redirects backends : Table) (resp : BackendResponse)
    (w : ResponseState) (r : Request) : ServeResult :=
  let red := redirectByHost redirects w r
  if red.1 then
    { w := red.2.1, r := red.2.2, logLines := [], forwarded := false }
  else
    let host := r.host
    match lookupTable backends host with
    | some _ =>
      let respW : responseWriter := { status := 0, ResponseWriter := w }
      let pr := proxyServeHTTP backends resp respW r
      let urlStr := pr.2.host ++ pr.2.url.path ++ "?" ++ pr.2.url.rawQuery
      let logs := if pr.1.status ≠ 200 then
          [pr.2.method ++ " " ++ urlStr ++ " " ++ Nat.repr pr.1.status]
        else []
      { w := pr.1.ResponseWriter, r := pr.2, logLines := logs, forwarded := true }
    | none =>
      { w := w.write ("unknown host: " ++ host), r := r, logLines := [], forwarded := false }

/-- reverseProxy handler state: the two tables (the forwarding primitive
itself is an external collaborator and carries no routing state). -/
structure reverseProxy where
  redirects : Table
  backends : Table
deriving DecidableEq, Repr

/-- Method form of ServeHTTP.  The receiver's tables are only read, never
assigned, so the receiver after the call is returned alongside the
result. -/
def reverseProxy.ServeHTTP (rp : reverseProxy) (resp : BackendResponse)
    (w : ResponseState) (r : Request) : reverseProxy × ServeResult :=
  (rp, serveHTTP rp.redirects rp.backends resp w r)

/-- Host Router disposition: the three-way tagged union of the dispatch
decision. -/
inductive Disposition where
  | Redirect (target : String)
  | Proxy (addr : String)
  | Unknown
deriving DecidableEq, Repr

/-- route, the Host Router: mirrors the branch order of
reverseProxy.ServeHTTP (redirect table checked before backend table). -/
def route (redirects backends : Table) (host : String) : Disposition :=
  match lookupTable redirects host with
  | some t => .Redirect t
  | none =>
    match lookupTable backends host with
    | some a => .Proxy a
    | none => .Unknown

/-- Model of net/http Redirect as used here (absolute target URL): set
the Location header to the URL string, for GET with no preexisting
Content-Type also a text/html content type, write the status code, and
for such GET requests the conventional anchor body (fmt.Fprintln appends
a newline).  The percent-escaping of non-ASCII Location bytes is elided:
it is the identity on the ASCII strings HTTP headers carry. -/
def httpRedirect (w : ResponseState) (r : Request) (url : String) (code : Nat) : ResponseState :=
  let hadCT := (w.getHeader "Content-Type").isSome
  let w2 := w.setHeader "Location" url
  let w3 := if hadCT = false ∧ r.method = "GET" then
      w2.setHeader "Content-Type" "text/html; charset=utf-8"
    else w2
  let w4 := w3.writeHeader code
  if hadCT = false ∧ r.method = "GET" then
    w4.write ("<a href=\"" ++ htmlEscape url ++ "\">" ++ statusText code ++ "</a>.\n" ++ "\n")
  else w4

/-- Handler installed by serveToTLS on port 80: force scheme https and
the Host header into the request URL in place, then http.Redirect to the
resulting URL string with status 302 Found. -/
def serveToTLSHandler (w : ResponseState) (r : Request) : ResponseState × Request :=
  let r2 : Request := { r with url := { r.url with scheme := "https", host := r.host } }
  let urlStr := r2.url.toString
  (httpRedirect w r2 urlStr 302, r2)

end Proxy

namespace Proxy

/-! Helper lemmas about the response-writer operations. -/

theorem setHeader_statusWritten (s : ResponseState) (k v : String) :
    (s.setHeader k v).statusWritten = s.statusWritten := rfl

theorem setHeader_body (s : ResponseState) (k v : String) :
    (s.setHeader k v).body = s.body := rfl

theorem writeHeader_headers (s : ResponseState) (code : Nat) :
    (s.writeHeader code).headers = s.headers := by
  unfold ResponseState.writeHeader
  split <;> rfl

theorem writeHeader_body (s : ResponseState) (code : Nat) :
    (s.writeHeader code).body = s.body := by
  unfold ResponseState.writeHeader
  split <;> rfl

theorem writeHeader_statusWritten_none (s : ResponseState) (code : Nat)
    (h : s.statusWritten = none) : (s.writeHeader code).statusWritten = some code := by
  unfold ResponseState.writeHeader
  rw [h]

theorem writeHeader_statusWritten_some (s : ResponseState) (code c : Nat)
    (h : s.statusWritten = some c) : (s.writeHeader code).statusWritten = some c := by
  unfold ResponseState.writeHeader
  rw [h]
  exact h

theorem write_headers (s : ResponseState) (b : String) :
    (s.write b).headers = s.headers := by
  show (s.writeHeader 200).headers = s.headers
  exact writeHeader_headers s 200

theorem write_statusWritten_some (s : ResponseState) (b : String) (c : Nat)
    (h : s.statusWritten = some c) : (s.write b).statusWritten = some c := by
  show (s.writeHeader 200).statusWritten = some c
  exact writeHeader_statusWritten_some s 200 c h

theorem write_body (s : ResponseState) (b : String) :
    (s.write b).body = s.body ++ b := rfl

theorem getHeader_setHeader (s : ResponseState) (k v : String) :
    (s.setHeader k v).getHeader k = some v := by
  simp [ResponseState.setHeader, ResponseState.getHeader, List.lookup]

/-! Helper lemmas unfolding the two branches of redirectByHost and the
three branches of serveHTTP. -/

theorem redirectByHost_hit (hostMap : Table) (w : ResponseState) (r : Request) (t : String)
    (h : lookupTable hostMap r.host = some t) :
    redirectByHost hostMap w r =
      (true,
       (if r.method = "GET" then
          ((w.setHeader "Location" (URL.toString { r.url with host := t })).writeHeader 302).write
            ("<a href=\"" ++ htmlEscape (URL.toString { r.url with host := t }) ++ "\">" ++
              statusText 302 ++ "</a>.\n" ++ "\n")
        else (w.setHeader "Location" (URL.toString { r.url with host := t })).writeHeader 302),
       { r with url := { r.url with host := t } }) := by
  simp [redirectByHost, h]

theorem redirectByHost_miss (hostMap : Table) (w : ResponseState) (r : Request)
    (h : lookupTable hostMap r.host = none) :
    redirectByHost hostMap w r = (false, w, r) := by
  simp [redirectByHost, h]

theorem redirectByHost_hit_statusWritten (hostMap : Table) (r : Request) (t : String)
    (h : lookupTable hostMap r.host = some t) :
    (redirectByHost hostMap ResponseState.empty r).2.1.statusWritten = some 302 := by
  rw [redirectByHost_hit hostMap ResponseState.empty r t h]
  have h302 : ((ResponseState.empty.setHeader "Location"
      (URL.toString { r.url with host := t })).writeHeader 302).statusWritten = some 302 :=
    writeHeader_statusWritten_none _ 302 rfl
  split
  · exact write_statusWritten_some _ _ 302 h302
  · exact h302

theorem redirectByHost_hit_location (hostMap : Table) (w : ResponseState) (r : Request) (t : String)
    (h : lookupTable hostMap r.host = some t) :
    (redirectByHost hostMap w r).2.1.getHeader "Location" =
      some (URL.toString { r.url with host := t }) := by
  rw [redirectByHost_hit hostMap w r t h]
  have hloc : (((w.setHeader "Location" (URL.toString { r.url with host := t })).writeHeader
      302)).getHeader "Location" = some (URL.toString { r.url with host := t }) := by
    show List.lookup "Location"
        ((w.setHeader "Location" (URL.toString { r.url with host := t })).writeHeader 302).headers = _
    rw [writeHeader_headers]
    exact getHeader_setHeader w "Location" _
  split
  · show List.lookup "Location" (ResponseState.write _ _).headers = _
    rw [write_headers]
    exact hloc
  · exact hloc

theorem redirectByHost_hit_body_get (hostMap : Table) (r : Request) (t : String)
    (h : lookupTable hostMap r.host = some t) (hm : r.method = "GET") :
    (redirectByHost hostMap ResponseState.empty r).2.1.body =
      "<a href=\"" ++ htmlEscape (URL.toString { r.url with host := t }) ++ "\">" ++
        statusText 302 ++ "</a>.\n" ++ "\n" := by
  simp only [redirectByHost_hit hostMap ResponseState.empty r t h]
  rw [if_pos hm, write_body, writeHeader_body, setHeader_body]
  show "" ++ _ = _
  rw [String.empty_append]

theorem redirectByHost_hit_body_other (hostMap : Table) (r : Request) (t : String)
    (h : lookupTable hostMap r.host = some t) (hm : ¬ r.method = "GET") :
    (redirectByHost hostMap ResponseState.empty r).2.1.body = "" := by
  simp only [redirectByHost_hit hostMap ResponseState.empty r t h]
  rw [if_neg hm, writeHeader_body, setHeader_body]
  rfl

theorem serveHTTP_redirect_branch (redirects backends : Table) (resp : BackendResponse)
    (w : ResponseState) (r : Request) (t : String)
    (h : lookupTable redirects r.host = some t) :
    serveHTTP redirects backends resp w r =
      { w := (redirectByHost redirects w r).2.1,
        r := { r with url := { r.url with host := t } },
        logLines := [], forwarded := false } := by
  unfold serveHTTP
  rw [redirectByHost_hit redirects w r t h]
  rfl

theorem serveHTTP_proxy_branch (redirects backends : Table) (resp : BackendResponse)
    (w : ResponseState) (r : Request) (a : String)
    (hr : lookupTable redirects r.host = none)
    (hb : lookupTable backends r.host = some a) :
    serveHTTP redirects backends resp w r =
      { w := (w.writeHeader resp.status).write resp.body,
        r := director backends r,
        logLines :=
          if resp.status ≠ 200 then
            [r.method ++ " " ++ r.host ++ r.url.path ++ "?" ++ r.url.rawQuery ++ " " ++
              Nat.repr resp.status]
          else [],
        forwarded := true } := by
  unfold serveHTTP
  rw [redirectByHost_miss redirects w r hr]
  simp only [hb]
  simp [proxyServeHTTP, responseWriter.WriteHeader, director, String.append_assoc]

theorem serveHTTP_unknown_branch (redirects backends : Table) (resp : BackendResponse)
    (w : ResponseState) (r : Request)
    (hr : lookupTable redirects r.host = none)
    (hb : lookupTable backends r.host = none) :
    serveHTTP redirects backends resp w r =
      { w := w.write ("unknown host: " ++ r.host), r := r, logLines := [], forwarded := false } := by
  unfold serveHTTP
  rw [redirectByHost_miss redirects w r hr]
  simp only [hb]
  rfl

theorem serveHTTP_host (redirects backends : Table) (resp : BackendResponse)
    (w : ResponseState) (r : Request) :
    (serveHTTP redirects backends resp w r).r.host = r.host := by
  cases hr : lookupTable redirects r.host with
  | some t => rw [serveHTTP_redirect_branch redirects backends resp w r t hr]
  | none =>
    cases hb : lookupTable backends r.host with
    | some a =>
      rw [serveHTTP_proxy_branch redirects backends resp w r a hr hb]
      rfl
    | none => rw [serveHTTP_unknown_branch redirects backends resp w r hr hb]

end Proxy

namespace Proxy

theorem writeHeaderCalls_status (cs : List Nat) (w : responseWriter) (c : Nat) :
    (writeHeaderCalls w (c :: cs)).status = cs.getLastD c := by
  induction cs generalizing w c with
  | nil => rfl
  | cons d ds ih =>
    show (writeHeaderCalls (w.WriteHeader c) (d :: ds)).status = _
    rw [ih (w.WriteHeader c) d, List.getLastD_cons]

theorem writeHeaderCalls_underlying_some (cs : List Nat) (w : responseWriter) (c : Nat)
    (h : w.ResponseWriter.statusWritten = some c) :
    (writeHeaderCalls w cs).ResponseWriter.statusWritten = some c := by
  induction cs generalizing w with
  | nil => exact h
  | cons d ds ih =>
    show (writeHeaderCalls (w.WriteHeader d) ds).ResponseWriter.statusWritten = some c
    exact ih (w.WriteHeader d) (writeHeader_statusWritten_some w.ResponseWriter d c h)

/-- C1: for every host that is a key of the Redirect Table, dispatching a
request with that host yields the Redirect disposition with the mapped
canonical host regardless of the Backend Table, the handler answers 302
with the Location header set to the target URL, and no backend forward is
attempted. -/
theorem redirect_priority (redirects backends : Table) (resp : BackendResponse)
    (r : Request) (t : String) (h : lookupTable redirects r.host = some t) :
    route redirects backends r.host = Disposition.Redirect t ∧
    (serveHTTP redirects backends resp ResponseState.empty r).forwarded = false ∧
    (serveHTTP redirects backends resp ResponseState.empty r).w.statusWritten = some 302 ∧
    (serveHTTP redirects backends resp ResponseState.empty r).w.getHeader "Location" =
      some (URL.toString { r.url with host := t }) := by
  have hs := serveHTTP_redirect_branch redirects backends resp ResponseState.empty r t h
  refine ⟨by simp [route, h], by rw [hs], ?_, ?_⟩
  · rw [hs]
    exact redirectByHost_hit_statusWritten redirects r t h
  · rw [hs]
    exact redirectByHost_hit_location redirects ResponseState.empty r t h

/-- Witness for redirect_priority: host my.domain sits in both tables and
is redirected to www.my.domain, and the backend entry is dead. -/
theorem redirect_priority_witness :
    lookupTable [("my.domain", "www.my.domain")] "my.domain" = some "www.my.domain" ∧
    (route [("my.domain", "www.my.domain")] [("my.domain", "localhost:1")] "my.domain" =
        Disposition.Redirect "www.my.domain" ∧
      (serveHTTP [("my.domain", "www.my.domain")] [("my.domain", "localhost:1")]
          { status := 200, body := "" } ResponseState.empty
          { method := "GET", host := "my.domain",
            url := { scheme := "", host := "", path := "/foo", rawQuery := "bar=1" } }).forwarded =
        false ∧
      (serveHTTP [("my.domain", "www.my.domain")] [("my.domain", "localhost:1")]
          { status := 200, body := "" } ResponseState.empty
          { method := "GET", host := "my.domain",
            url := { scheme := "", host := "", path := "/foo", rawQuery := "bar=1" } }).w.statusWritten =
        some 302 ∧
      (serveHTTP [("my.domain", "www.my.domain")] [("my.domain", "localhost:1")]
          { status := 200, body := "" } ResponseState.empty
          { method := "GET", host := "my.domain",
            url := { scheme := "", host := "", path := "/foo", rawQuery := "bar=1" } }).w.getHeader
          "Location" =
        some (URL.toString { scheme := "", host := "www.my.domain", path := "/foo", rawQuery := "bar=1" })) :=
  ⟨by decide,
    redirect_priority [("my.domain", "www.my.domain")] [("my.domain", "localhost:1")]
      { status := 200, body := "" }
      { method := "GET", host := "my.domain",
        url := { scheme := "", host := "", path := "/foo", rawQuery := "bar=1" } }
      "www.my.domain" (by decide)⟩

end Proxy

namespace Proxy

/-- C2 counterexample: a freshly allocated wrapper on which WriteHeader is
never called reads back the Go zero value 0, not the platform default
success status 200. -/
theorem wrapper_default_status_cex :
    (writeHeaderCalls { status := 0, ResponseWriter := ResponseState.empty } []).status ≠ 200 := by
  decide

/-- C2 amended: when no WriteHeader call ever reaches the wrapper, the
captured status reads back as 0, the int zero value (hence such a request
would even be logged, since 0 differs from 200). -/
theorem wrapper_default_status (w0 : ResponseState) :
    (writeHeaderCalls { status := 0, ResponseWriter := w0 } []).status = 0 := rfl

/-- C3: for a host absent from the Redirect Table and present in the
Backend Table, the captured status is the forwarded response's status,
and exactly the non-200 outcomes produce the single log line
"METHOD host+escapedPath?rawQuery status". -/
theorem proxy_log_iff (redirects backends : Table) (resp : BackendResponse)
    (r : Request) (a : String)
    (hr : lookupTable redirects r.host = none)
    (hb : lookupTable backends r.host = some a) :
    (proxyServeHTTP backends resp { status := 0, ResponseWriter := ResponseState.empty } r).1.status =
      resp.status ∧
    (serveHTTP redirects backends resp ResponseState.empty r).logLines =
      (if resp.status = 200 then []
       else
         [r.method ++ " " ++ r.host ++ r.url.path ++ "?" ++ r.url.rawQuery ++ " " ++
           Nat.repr resp.status]) := by
  refine ⟨rfl, ?_⟩
  rw [serveHTTP_proxy_branch redirects backends resp ResponseState.empty r a hr hb]
  by_cases h200 : resp.status = 200 <;> simp [h200]

/-- Witness for proxy_log_iff: a backend 500 on www.my.domain produces
exactly the log line of end-to-end scenario 2. -/
theorem proxy_log_iff_witness :
    lookupTable [("my.domain", "www.my.domain")] "www.my.domain" = none ∧
    lookupTable [("www.my.domain", "localhost:12345")] "www.my.domain" = some "localhost:12345" ∧
    ((proxyServeHTTP [("www.my.domain", "localhost:12345")] { status := 500, body := "oops" }
          { status := 0, ResponseWriter := ResponseState.empty }
          { method := "GET", host := "www.my.domain",
            url := { scheme := "", host := "", path := "/foo", rawQuery := "bar=1" } }).1.status =
        500 ∧
      (serveHTTP [("my.domain", "www.my.domain")] [("www.my.domain", "localhost:12345")]
          { status := 500, body := "oops" } ResponseState.empty
          { method := "GET", host := "www.my.domain",
            url := { scheme := "", host := "", path := "/foo", rawQuery := "bar=1" } }).logLines =
        (if (500 : Nat) = 200 then []
         else ["GET" ++ " " ++ "www.my.domain" ++ "/foo" ++ "?" ++ "bar=1" ++ " " ++ Nat.repr 500])) :=
  ⟨by decide, by decide,
    proxy_log_iff [("my.domain", "www.my.domain")] [("www.my.domain", "localhost:12345")]
      { status := 500, body := "oops" }
      { method := "GET", host := "www.my.domain",
        url := { scheme := "", host := "", path := "/foo", rawQuery := "bar=1" } }
      "localhost:12345" (by decide) (by decide)⟩

/-- C4: a host in neither table gets the plain-text body
"unknown host: host" under the implicit default success status 200, and
no forward is attempted. -/
theorem unknown_host_response (redirects backends : Table) (resp : BackendResponse) (r : Request)
    (hr : lookupTable redirects r.host = none)
    (hb : lookupTable backends r.host = none) :
    (serveHTTP redirects backends resp ResponseState.empty r).w.body =
      "unknown host: " ++ r.host ∧
    (serveHTTP redirects backends resp ResponseState.empty r).w.statusWritten = some 200 ∧
    (serveHTTP redirects backends resp ResponseState.empty r).forwarded = false := by
  have hs := serveHTTP_unknown_branch redirects backends resp ResponseState.empty r hr hb
  refine ⟨?_, ?_, by rw [hs]⟩
  · rw [hs, write_body]
    exact String.empty_append _
  · rw [hs]
    rfl

/-- Witness for unknown_host_response: end-to-end scenario 3. -/
theorem unknown_host_response_witness :
    lookupTable [("my.domain", "www.my.domain")] "unknown.example" = none ∧
    lookupTable [("www.my.domain", "localhost:12345")] "unknown.example" = none ∧
    ((serveHTTP [("my.domain", "www.my.domain")] [("www.my.domain", "localhost:12345")]
          { status := 200, body := "" } ResponseState.empty
          { method := "GET", host := "unknown.example",
            url := { scheme := "", host := "", path := "/x", rawQuery := "" } }).w.body =
        "unknown host: " ++ "unknown.example" ∧
      (serveHTTP [("my.domain", "www.my.domain")] [("www.my.domain", "localhost:12345")]
          { status := 200, body := "" } ResponseState.empty
          { method := "GET", host := "unknown.example",
            url := { scheme := "", host := "", path := "/x", rawQuery := "" } }).w.statusWritten =
        some 200 ∧
      (serveHTTP [("my.domain", "www.my.domain")] [("www.my.domain", "localhost:12345")]
          { status := 200, body := "" } ResponseState.empty
          { method := "GET", host := "unknown.example",
            url := { scheme := "", host := "", path := "/x", rawQuery := "" } }).forwarded = false) :=
  ⟨by decide, by decide,
    unknown_host_response [("my.domain", "www.my.domain")] [("www.my.domain", "localhost:12345")]
      { status := 200, body := "" }
      { method := "GET", host := "unknown.example",
        url := { scheme := "", host := "", path := "/x", rawQuery := "" } }
      (by decide) (by decide)⟩

end Proxy

namespace Proxy

/-- C5: on a redirect-table hit the emission returns true, writes status
302 with the Location header set to the target URL, and exactly for GET
requests writes the anchor body whose href is the HTML-escaped Location
value followed by the text for 302 ("Found"); any other method (POST,
HEAD, ...) gets an empty body. -/
theorem redirect_emission (hostMap : Table) (r : Request) (t : String)
    (h : lookupTable hostMap r.host = some t) :
    (redirectByHost hostMap ResponseState.empty r).1 = true ∧
    (redirectByHost hostMap ResponseState.empty r).2.1.statusWritten = some 302 ∧
    (redirectByHost hostMap ResponseState.empty r).2.1.getHeader "Location" =
      some (URL.toString { r.url with host := t }) ∧
    (r.method = "GET" →
      (redirectByHost hostMap ResponseState.empty r).2.1.body =
        "<a href=\"" ++ htmlEscape (URL.toString { r.url with host := t }) ++ "\">" ++
          statusText 302 ++ "</a>.\n" ++ "\n") ∧
    (¬ r.method = "GET" →
      (redirectByHost hostMap ResponseState.empty r).2.1.body = "") := by
  refine ⟨?_, redirectByHost_hit_statusWritten hostMap r t h,
    redirectByHost_hit_location hostMap ResponseState.empty r t h,
    fun hm => redirectByHost_hit_body_get hostMap r t h hm,
    fun hm => redirectByHost_hit_body_other hostMap r t h hm⟩
  rw [redirectByHost_hit hostMap ResponseState.empty r t h]

/-- Witness for redirect_emission: a GET for my.domain is answered with
302, Location //www.my.domain/foo?bar=1 and the anchor body. -/
theorem redirect_emission_witness :
    lookupTable [("my.domain", "www.my.domain")] "my.domain" = some "www.my.domain" ∧
    ((redirectByHost [("my.domain", "www.my.domain")] ResponseState.empty
          { method := "GET", host := "my.domain",
            url := { scheme := "", host := "", path := "/foo", rawQuery := "bar=1" } }).1 = true ∧
      (redirectByHost [("my.domain", "www.my.domain")] ResponseState.empty
          { method := "GET", host := "my.domain",
            url := { scheme := "", host := "", path := "/foo", rawQuery := "bar=1" } }).2.1.statusWritten =
        some 302 ∧
      (redirectByHost [("my.domain", "www.my.domain")] ResponseState.empty
          { method := "GET", host := "my.domain",
            url := { scheme := "", host := "", path := "/foo", rawQuery := "bar=1" } }).2.1.getHeader
          "Location" =
        some (URL.toString
          { scheme := "", host := "www.my.domain", path := "/foo", rawQuery := "bar=1" }) ∧
      ("GET" = "GET" →
        (redirectByHost [("my.domain", "www.my.domain")] ResponseState.empty
            { method := "GET", host := "my.domain",
              url := { scheme := "", host := "", path := "/foo", rawQuery := "bar=1" } }).2.1.body =
          "<a href=\"" ++ htmlEscape (URL.toString
              { scheme := "", host := "www.my.domain", path := "/foo", rawQuery := "bar=1" }) ++
            "\">" ++ statusText 302 ++ "</a>.\n" ++ "\n") ∧
      (¬ "GET" = "GET" →
        (redirectByHost [("my.domain", "www.my.domain")] ResponseState.empty
            { method := "GET", host := "my.domain",
              url := { scheme := "", host := "", path := "/foo", rawQuery := "bar=1" } }).2.1.body =
          "")) :=
  ⟨by decide,
    redirect_emission [("my.domain", "www.my.domain")]
      { method := "GET", host := "my.domain",
        url := { scheme := "", host := "", path := "/foo", rawQuery := "bar=1" } }
      "www.my.domain" (by decide)⟩

/-- C6 counterexample: redirect emission does not leave the original
request's URL unchanged; for host my.domain mapped to www.my.domain the
request URL after emission differs from the URL before (its host was
overwritten in place). -/
theorem redirect_mutates_url_cex :
    (redirectByHost [("my.domain", "www.my.domain")] ResponseState.empty
        { method := "GET", host := "my.domain",
          url := { scheme := "", host := "", path := "/foo", rawQuery := "bar=1" } }).2.2.url ≠
      ({ scheme := "", host := "", path := "/foo", rawQuery := "bar=1" } : URL) := by
  decide

/-- C6 amended: redirect emission constructs the target URL by
overwriting the host of the request's own URL with the target, preserving
scheme, path and query, and sets Location to that URL's string; after
emission the request's URL is the original with exactly its host
replaced (the original URL is mutated, not copied). -/
theorem redirect_url_update (hostMap : Table) (w : ResponseState) (r : Request) (t : String)
    (h : lookupTable hostMap r.host = some t) :
    (redirectByHost hostMap w r).2.2 = { r with url := { r.url with host := t } } ∧
    (redirectByHost hostMap w r).2.1.getHeader "Location" =
      some (URL.toString { r.url with host := t }) := by
  refine ⟨?_, redirectByHost_hit_location hostMap w r t h⟩
  rw [redirectByHost_hit hostMap w r t h]

/-- Witness for redirect_url_update at the configured redirect entry. -/
theorem redirect_url_update_witness :
    lookupTable [("my.domain", "www.my.domain")] "my.domain" = some "www.my.domain" ∧
    ((redirectByHost [("my.domain", "www.my.domain")] ResponseState.empty
          { method := "GET", host := "my.domain",
            url := { scheme := "", host := "", path := "/foo", rawQuery := "bar=1" } }).2.2 =
        { method := "GET", host := "my.domain",
          url := { scheme := "", host := "www.my.domain", path := "/foo", rawQuery := "bar=1" } } ∧
      (redirectByHost [("my.domain", "www.my.domain")] ResponseState.empty
          { method := "GET", host := "my.domain",
            url := { scheme := "", host := "", path := "/foo", rawQuery := "bar=1" } }).2.1.getHeader
          "Location" =
        some (URL.toString
          { scheme := "", host := "www.my.domain", path := "/foo", rawQuery := "bar=1" })) :=
  ⟨by decide,
    redirect_url_update [("my.domain", "www.my.domain")] ResponseState.empty
      { method := "GET", host := "my.domain",
        url := { scheme := "", host := "", path := "/foo", rawQuery := "bar=1" } }
      "www.my.domain" (by decide)⟩

/-- C7 counterexample: after WriteHeader(201) followed by WriteHeader(500)
the wrapper reads back 500, not the first call's argument 201: the
captured value is overwritten by every call. -/
theorem captured_status_first_cex :
    (writeHeaderCalls { status := 0, ResponseWriter := ResponseState.empty } [201, 500]).status ≠
      201 := by
  decide

/-- C7 amended: over any nonempty sequence of WriteHeader calls on a
wrapper whose underlying writer is still fresh, the captured value read
afterwards equals the argument of the LAST call (each call overwrites the
field), while the underlying response keeps the FIRST call's status (that
one is the only meaningful write on the wire). -/
theorem captured_status_last (w : responseWriter) (c : Nat) (cs : List Nat)
    (hfresh : w.ResponseWriter.statusWritten = none) :
    (writeHeaderCalls w (c :: cs)).status = cs.getLastD c ∧
    (writeHeaderCalls w (c :: cs)).ResponseWriter.statusWritten = some c := by
  refine ⟨writeHeaderCalls_status cs w c, ?_⟩
  show (writeHeaderCalls (w.WriteHeader c) cs).ResponseWriter.statusWritten = some c
  exact writeHeaderCalls_underlying_some cs (w.WriteHeader c) c
    (writeHeader_statusWritten_none w.ResponseWriter c hfresh)

/-- Witness for captured_status_last: calls 201 then 500 capture 500 while
the wire status stays 201. -/
theorem captured_status_last_witness :
    ({ status := 0, ResponseWriter := ResponseState.empty } : responseWriter).ResponseWriter.statusWritten =
      none ∧
    ((writeHeaderCalls { status := 0, ResponseWriter := ResponseState.empty } [201, 500]).status =
        500 ∧
      (writeHeaderCalls { status := 0, ResponseWriter := ResponseState.empty }
          [201, 500]).ResponseWriter.statusWritten = some 201) :=
  ⟨rfl, captured_status_last { status := 0, ResponseWriter := ResponseState.empty } 201 [500] rfl⟩

end Proxy

namespace Proxy

/-- C8: the plaintext redirector answers every request with status 302
Found and a Location header equal to the request's URL with scheme forced
to https and host set to the Host header, path and query preserved. -/
theorem serveToTLS_redirect (r : Request) :
    (serveToTLSHandler ResponseState.empty r).1.statusWritten = some 302 ∧
    (serveToTLSHandler ResponseState.empty r).1.getHeader "Location" =
      some (URL.toString { r.url with scheme := "https", host := r.host }) := by
  unfold serveToTLSHandler httpRedirect
  by_cases hm : r.method = "GET" <;>
    simp [hm, ResponseState.getHeader, ResponseState.setHeader, ResponseState.writeHeader,
      ResponseState.write, ResponseState.empty, List.lookup]

/-- C9: dispatch is a pure read of the Host header and the two tables:
repeating the dispatch of one host any number of times yields the one
disposition, the handler returns its table state unchanged, and a served
request still dispatches to the same disposition afterwards (the Host
header the router reads is never modified). -/
theorem route_pure_dispatch (rp : reverseProxy) (resp : BackendResponse)
    (w : ResponseState) (r : Request) (n : Nat) :
    (List.replicate n r.host).map (route rp.redirects rp.backends) =
      List.replicate n (route rp.redirects rp.backends r.host) ∧
    (rp.ServeHTTP resp w r).1 = rp ∧
    route rp.redirects rp.backends ((rp.ServeHTTP resp w r).2.r.host) =
      route rp.redirects rp.backends r.host := by
  refine ⟨List.map_replicate, rfl, ?_⟩
  rw [show (rp.ServeHTTP resp w r).2 = serveHTTP rp.redirects rp.backends resp w r from rfl,
    serveHTTP_host]

/-- C10: when the request's host is not a key of the redirect table,
redirectByHost returns false and performs no write at all: the writer is
returned as it was (no Location header, no status, no body) and the
request, URL included, is unmodified. -/
theorem redirect_no_match (hostMap : Table) (w : ResponseState) (r : Request)
    (h : lookupTable hostMap r.host = none) :
    redirectByHost hostMap w r = (false, w, r) :=
  redirectByHost_miss hostMap w r h

/-- Witness for redirect_no_match: www.my.domain is not a redirect key. -/
theorem redirect_no_match_witness :
    lookupTable [("my.domain", "www.my.domain")] "www.my.domain" = none ∧
    redirectByHost [("my.domain", "www.my.domain")] ResponseState.empty
        { method := "GET", host := "www.my.domain",
          url := { scheme := "", host := "", path := "/foo", rawQuery := "bar=1" } } =
      (false, ResponseState.empty,
        { method := "GET", host := "www.my.domain",
          url := { scheme := "", host := "", path := "/foo", rawQuery := "bar=1" } }) :=
  ⟨by decide,
    redirect_no_match [("my.domain", "www.my.domain")] ResponseState.empty
      { method := "GET", host := "www.my.domain",
        url := { scheme := "", host := "", path := "/foo", rawQuery := "bar=1" } }
      (by decide)⟩

end Proxy
